import Mathlib

/-!
# Verification of the stadiacontroller report codec and device session

Shallow embedding of the Go package `stadiacontroller` (files `stadia.go`,
`vigem.go`, `hid.go`, `cmd/main.go`): the HID report decoder `ParseReport`,
the axis conversion `convertAxisValue`, the `Xbox360ControllerReport`
structure with its setters, the `GetReport` session read, and the
device-presence scan loop started by `NewStadiaController`.

Bytes are modelled as `Nat` values below 256; the Go `int32`/`int16`
arithmetic is modelled on `Int` with an explicit wrap `toInt16` where the
source converts to `int16`.
-/

set_option maxRecDepth 8000

namespace StadiaCtl

/-! ## Button bit indices (vigem.go, `Xbox360ControllerButton*` constants) -/

def Xbox360ControllerButtonUp : Nat := 0
def Xbox360ControllerButtonDown : Nat := 1
def Xbox360ControllerButtonLeft : Nat := 2
def Xbox360ControllerButtonRight : Nat := 3
def Xbox360ControllerButtonStart : Nat := 4
def Xbox360ControllerButtonBack : Nat := 5
def Xbox360ControllerButtonLeftThumb : Nat := 6
def Xbox360ControllerButtonRightThumb : Nat := 7
def Xbox360ControllerButtonLeftShoulder : Nat := 8
def Xbox360ControllerButtonRightShoulder : Nat := 9
def Xbox360ControllerButtonGuide : Nat := 10
def Xbox360ControllerButtonA : Nat := 12
def Xbox360ControllerButtonB : Nat := 13
def Xbox360ControllerButtonX : Nat := 14
def Xbox360ControllerButtonY : Nat := 15

/-! ## The report structure (vigem.go, `Xbox360ControllerReport` wrapping
the C `xusb_report`): a 16-bit button mask, two 8-bit triggers, four
signed 16-bit stick axes, plus the two out-of-band flags. -/

structure Xbox360ControllerReport where
  wButtons : Nat
  bLeftTrigger : Nat
  bRightTrigger : Nat
  sThumbLX : Int
  sThumbLY : Int
  sThumbRX : Int
  sThumbRY : Int
  Capture : Bool
  Assistant : Bool
deriving DecidableEq, Repr

/-- The zero value `Xbox360ControllerReport{}` that `GetReport` starts from. -/
def emptyReport : Xbox360ControllerReport :=
  ⟨0, 0, 0, 0, 0, 0, 0, false, false⟩

def SetButton (r : Xbox360ControllerReport) (shiftBy : Nat) : Xbox360ControllerReport :=
  { r with wButtons := r.wButtons ||| (1 <<< shiftBy) }

def MaybeSetButton (r : Xbox360ControllerReport) (shiftBy : Nat) (isSet : Bool) :
    Xbox360ControllerReport :=
  if isSet then SetButton r shiftBy else r

/-- Go `int16(x)`: wrap an `Int` into the range −32768..32767. -/
def toInt16 (x : Int) : Int := (x + 32768) % 65536 - 32768

def SetLeftThumb (r : Xbox360ControllerReport) (x y : Int) : Xbox360ControllerReport :=
  { r with sThumbLX := x, sThumbLY := y }

def SetRightThumb (r : Xbox360ControllerReport) (x y : Int) : Xbox360ControllerReport :=
  { r with sThumbRX := x, sThumbRY := y }

def SetLeftTrigger (r : Xbox360ControllerReport) (v : Nat) : Xbox360ControllerReport :=
  { r with bLeftTrigger := v }

def SetRightTrigger (r : Xbox360ControllerReport) (v : Nat) : Xbox360ControllerReport :=
  { r with bRightTrigger := v }

/-- Observer: whether button bit `i` of the mask is set (via `GetButtons`). -/
def hasButton (r : Xbox360ControllerReport) (i : Nat) : Bool :=
  r.wButtons.testBit i

/-! ## Errors

Go errors are compared by identity; the package has the sentinel
`RetryError`, the two errors constructed in `ParseReport`, and whatever
platform error `Devices()` may return (carried abstractly as a string). -/

inductive GoError where
  | emptyReport
  | unknownFormat (encoded : String)
  | retryError
  | platformError (msg : String)
deriving DecidableEq, Repr

/-! ## base64.StdEncoding.EncodeToString (used by the UnknownFormat error) -/

def base64Chars : List Char :=
  ("ABCDEFGHIJKLMNOPQRSTUVWXYZabcdefghijklmnopqrstuvwxyz0123456789+/").toList

def base64Char (n : Nat) : Char := base64Chars.getD n 'A'

def base64Encode : List Nat → String
  | [] => ""
  | [a] =>
      String.mk [base64Char (a / 4), base64Char (a % 4 * 16), '=', '=']
  | [a, b] =>
      String.mk [base64Char (a / 4), base64Char (a % 4 * 16 + b / 16),
        base64Char (b % 16 * 4), '=']
  | a :: b :: c :: rest =>
      String.mk [base64Char (a / 4), base64Char (a % 4 * 16 + b / 16),
        base64Char (b % 16 * 4 + c / 64), base64Char (c % 64)] ++ base64Encode rest

/-! ## Axis conversion (stadia.go, `convertAxisValue`) -/

/-- The widening expression `value<<8 | ((value << 1) & 0b1111)` of
`convertAxisValue`, before the `0xfffe` clamp check. -/
def rawWide (byteValue : Nat) : Nat :=
  (byteValue <<< 8) ||| ((byteValue <<< 1) &&& 0b1111)

/-- stadia.go `convertAxisValue`: widen, then clamp `0xfffe` to `0xffff`. -/
def convertAxisValue (byteValue : Nat) : Nat :=
  if rawWide byteValue = 0xfffe then 0xffff else rawWide byteValue

/-- The bias step applied in place to each of `data[4..7]` before widening:
`if data[i] <= 0x7F && data[i] > 0x00 { data[i]-- }`. -/
def biasAxis (v : Nat) : Nat :=
  if v ≤ 0x7F ∧ v > 0x00 then v - 1 else v

/-- The in-place loop `for i := 4; i < 8; i++` applying `biasAxis` to the
buffer of the caller. -/
def normalizeAxes (data : List Nat) : List Nat :=
  let step := fun (d : List Nat) (i : Nat) => d.set i (biasAxis (d.getD i 0))
  step (step (step (step data 4) 5) 6) 7

/-! ## ParseReport (stadia.go), split along its comment sections -/

/-- The "Update common buttons" block: `b = data[2]`, `c = data[3]`. -/
def decodeButtons (b c : Nat) (report : Xbox360ControllerReport) :
    Xbox360ControllerReport :=
  let report := MaybeSetButton report Xbox360ControllerButtonA ((c &&& 0b01000000) ≠ 0)
  let report := MaybeSetButton report Xbox360ControllerButtonB ((c &&& 0b00100000) ≠ 0)
  let report := MaybeSetButton report Xbox360ControllerButtonX ((c &&& 0b00010000) ≠ 0)
  let report := MaybeSetButton report Xbox360ControllerButtonY ((c &&& 0b00001000) ≠ 0)
  let report := MaybeSetButton report Xbox360ControllerButtonLeftShoulder ((c &&& 0b00000100) ≠ 0)
  let report := MaybeSetButton report Xbox360ControllerButtonRightShoulder ((c &&& 0b00000010) ≠ 0)
  let report := MaybeSetButton report Xbox360ControllerButtonLeftThumb ((c &&& 0b00000001) ≠ 0)
  let report := MaybeSetButton report Xbox360ControllerButtonRightThumb ((b &&& 0b10000000) ≠ 0)
  let report := MaybeSetButton report Xbox360ControllerButtonBack ((b &&& 0b01000000) ≠ 0)
  let report := MaybeSetButton report Xbox360ControllerButtonStart ((b &&& 0b00100000) ≠ 0)
  let report := MaybeSetButton report Xbox360ControllerButtonGuide ((b &&& 0b00010000) ≠ 0)
  { report with
    Assistant := (b &&& 0b00000010) ≠ 0
    Capture := (b &&& 0b00000001) ≠ 0 }

/-- The "Update DPad buttons" switch on `a = data[1]`. -/
def decodeDpad (a : Nat) (report : Xbox360ControllerReport) :
    Xbox360ControllerReport :=
  match a with
  | 0 => SetButton report Xbox360ControllerButtonUp
  | 1 => SetButton (SetButton report Xbox360ControllerButtonUp) Xbox360ControllerButtonRight
  | 2 => SetButton report Xbox360ControllerButtonRight
  | 3 => SetButton (SetButton report Xbox360ControllerButtonRight) Xbox360ControllerButtonDown
  | 4 => SetButton report Xbox360ControllerButtonDown
  | 5 => SetButton (SetButton report Xbox360ControllerButtonDown) Xbox360ControllerButtonLeft
  | 6 => SetButton report Xbox360ControllerButtonLeft
  | 7 => SetButton (SetButton report Xbox360ControllerButtonLeft) Xbox360ControllerButtonUp
  | _ => report

/-- The "Set axes values" and "Set triggers" blocks, applied to the buffer
after the in-place bias loop has run. -/
def decodeAxes (data : List Nat) (report : Xbox360ControllerReport) :
    Xbox360ControllerReport :=
  let lThumbX := (convertAxisValue (data.getD 4 0) : Int) - 0x8000
  let lThumbY := -(convertAxisValue (data.getD 5 0) : Int) + 0x7fff
  let rThumbX := (convertAxisValue (data.getD 6 0) : Int) - 0x8000
  let rThumbY := -(convertAxisValue (data.getD 7 0) : Int) + 0x7fff
  let lThumbY := if lThumbY = -1 then 0 else lThumbY
  let rThumbY := if rThumbY = -1 then 0 else rThumbY
  let report := SetLeftThumb report (toInt16 lThumbX) (toInt16 lThumbY)
  let report := SetRightThumb report (toInt16 rThumbX) (toInt16 rThumbY)
  let report := SetLeftTrigger report (data.getD 8 0)
  SetRightTrigger report (data.getD 9 0)

/-- stadia.go `ParseReport`. The Go function mutates `data` (the bias loop)
and `report` through a pointer and returns an error; here it returns the
mutated buffer together with either the error or the updated report. -/
def ParseReport (data : List Nat) (report : Xbox360ControllerReport) :
    List Nat × Except GoError Xbox360ControllerReport :=
  if data.length = 0 then
    (data, Except.error GoError.emptyReport)
  else if data.getD 0 0 = 0x03 ∧ 10 ≤ data.length then
    let report := decodeButtons (data.getD 2 0) (data.getD 3 0) report
    let report := decodeDpad (data.getD 1 0) report
    let data := normalizeAxes data
    let report := decodeAxes data report
    (data, Except.ok report)
  else
    (data, Except.error (GoError.unknownFormat (base64Encode data)))

/-! ## Device session and presence supervision (stadia.go)

`StadiaController` holds a nullable open device and a recorded error; the
scan goroutine started by `NewStadiaController` runs until it breaks out
on an enumeration failure. The open device itself carries no data the
claims need, so `device` is modelled as presence; the outcome of the
blocking channel receive `<-ReadCh()` (a buffer, or closure) and the
outcome of `Devices()` are inputs to the step functions. -/

structure StadiaController where
  device : Bool
  err : Option GoError
  scanLoopRunning : Bool
deriving DecidableEq, Repr

/-- The controller as built by `NewStadiaController`: no device, no error,
scan goroutine running. -/
def newStadiaController : StadiaController := ⟨false, none, true⟩

/-- What one receive from the read channel of the device yields: a byte buffer,
or channel closure (`ok == false`). -/
inductive ReadOutcome where
  | closed
  | buf (data : List Nat)
deriving DecidableEq, Repr

/-- Result of one `GetReport` call: the controller state afterwards, the
returned report and error, and whether a channel receive was performed
(`false` on the early `c.device == nil` return). -/
structure GetReportResult where
  state : StadiaController
  report : Xbox360ControllerReport
  err : Option GoError
  performedRead : Bool
deriving DecidableEq, Repr

/-- stadia.go `(*StadiaController).GetReport`, with the outcome of the
channel receive passed in. -/
def GetReport (c : StadiaController) (read : ReadOutcome) : GetReportResult :=
  let report := emptyReport
  if c.device = false then
    { state := c, report := report, err := some (c.err.getD GoError.retryError),
      performedRead := false }
  else
    match read with
    | ReadOutcome.closed =>
        { state := { c with device := false }, report := report,
          err := some GoError.retryError, performedRead := true }
    | ReadOutcome.buf data =>
        match (ParseReport data report).2 with
        | Except.error _ =>
            { state := c, report := report, err := some GoError.retryError,
              performedRead := true }
        | Except.ok r =>
            { state := c, report := r, err := none, performedRead := true }

/-- hid.go `DeviceInfo`, restricted to what the scan loop inspects; whether
`Open()` would succeed on this device is carried as an oracle bit. -/
structure DeviceInfo where
  vendorID : Nat
  productID : Nat
  openOk : Bool
deriving DecidableEq, Repr

/-- What one call to `Devices()` yields: a platform error, or a device list. -/
inductive EnumOutcome where
  | failure (e : GoError)
  | devices (ds : List DeviceInfo)
deriving DecidableEq, Repr

def stadiaControllerVid : Nat := 0x18D1
def stadiaControllerPid : Nat := 0x9400

/-- The inner `for` of the scan loop over the device list: it acts on the first
VID/PID match and breaks, whether or not `Open()` succeeded. -/
def findStadiaDevice (ds : List DeviceInfo) : Option DeviceInfo :=
  ds.find? fun d =>
    d.vendorID == stadiaControllerVid && d.productID == stadiaControllerPid

/-- One tick of the scan goroutine in `NewStadiaController`, with the
enumeration outcome passed in. Returns the new state and whether
`Devices()` was actually called on this tick (`false` when the loop has
terminated via `break`, or when the tick hit the `continue` guard). -/
def scanTick (c : StadiaController) (enum : EnumOutcome) : StadiaController × Bool :=
  if c.scanLoopRunning = false then
    (c, false)
  else if c.device = true ∨ c.err.isSome then
    (c, false)
  else
    match enum with
    | EnumOutcome.failure e =>
        ({ c with err := some e, scanLoopRunning := false }, true)
    | EnumOutcome.devices ds =>
        match findStadiaDevice ds with
        | none => (c, true)
        | some d => if d.openOk then ({ c with device := true }, true) else (c, true)

/-! ## The axis pipeline as the specification words it

For the axis claims the spec pipeline is written out separately, following
the spec text, and compared with the decoder above: bias step on the raw
byte, widening with the `0xFFFE` clamp, then the signed X form
`wide - 0x8000` and the inverted Y form `-wide + 0x7FFF` with the snap of
an exact `-1` to `0`. -/

def specAxisWide (v : Nat) : Nat :=
  let v := if 0 < v ∧ v ≤ 0x7F then v - 1 else v
  let wide := (v <<< 8) ||| ((v <<< 1) &&& 0xF)
  if wide = 0xFFFE then 0xFFFF else wide

def specAxisX (v : Nat) : Int := (specAxisWide v : Int) - 0x8000

def specAxisY (v : Nat) : Int :=
  let y := -(specAxisWide v : Int) + 0x7FFF
  if y = -1 then 0 else y

/-- Observer: the report produced by decoding a buffer starting from the
zero report, as `GetReport` does; the zero report on a decode error. -/
def decoded (data : List Nat) : Xbox360ControllerReport :=
  match (ParseReport data emptyReport).2 with
  | Except.ok r => r
  | Except.error _ => emptyReport

/-! ## Helper lemmas -/

theorem getD_set_self (l : List Nat) (i a d : Nat) (h : i < l.length) :
    (l.set i a).getD i d = a := by
  simp [List.getD_eq_getElem?_getD, List.getElem?_set_eq_of_lt, h]

theorem getD_set_ne (l : List Nat) (i j a d : Nat) (h : i ≠ j) :
    (l.set i a).getD j d = l.getD j d := by
  simp [List.getD_eq_getElem?_getD, List.getElem?_set_ne h]

theorem normalizeAxes_length (data : List Nat) :
    (normalizeAxes data).length = data.length := by
  simp [normalizeAxes]

/-- The in-place bias loop acts index-wise: indices 4..7 get `biasAxis`,
all other indices are untouched. -/
theorem normalizeAxes_getD (data : List Nat) (h : 10 ≤ data.length) (i : Nat) :
    (normalizeAxes data).getD i 0 =
      if 4 ≤ i ∧ i < 8 then biasAxis (data.getD i 0) else data.getD i 0 := by
  have l4 : 4 < data.length := by omega
  simp only [normalizeAxes]
  by_cases hi4 : i = 4
  · subst hi4
    rw [getD_set_ne _ 7 4 _ _ (by omega), getD_set_ne _ 6 4 _ _ (by omega),
        getD_set_ne _ 5 4 _ _ (by omega),
        getD_set_self _ 4 _ _ (by omega), if_pos (by omega)]
  by_cases hi5 : i = 5
  · subst hi5
    rw [getD_set_ne _ 7 5 _ _ (by omega), getD_set_ne _ 6 5 _ _ (by omega),
        getD_set_self _ 5 _ _ (by simp; omega),
        getD_set_ne _ 4 5 _ _ (by omega), if_pos (by omega)]
  by_cases hi6 : i = 6
  · subst hi6
    rw [getD_set_ne _ 7 6 _ _ (by omega),
        getD_set_self _ 6 _ _ (by simp; omega),
        getD_set_ne _ 5 6 _ _ (by omega), getD_set_ne _ 4 6 _ _ (by omega),
        if_pos (by omega)]
  by_cases hi7 : i = 7
  · subst hi7
    rw [getD_set_self _ 7 _ _ (by simp; omega),
        getD_set_ne _ 6 7 _ _ (by omega), getD_set_ne _ 5 7 _ _ (by omega),
        getD_set_ne _ 4 7 _ _ (by omega), if_pos (by omega)]
  · rw [getD_set_ne _ 7 i _ _ (by omega), getD_set_ne _ 6 i _ _ (by omega),
        getD_set_ne _ 5 i _ _ (by omega), getD_set_ne _ 4 i _ _ (by omega),
        if_neg (by omega)]

/-- Per byte value, the decoder composition `toInt16 ∘ (convert ∘ bias ∓
offset, with the Y snap)` agrees with the spec pipeline; in particular no
`int16` wrap occurs on either axis form. -/
theorem axis_pipeline_eq (v : Nat) (h : v < 256) :
    toInt16 ((convertAxisValue (biasAxis v) : Int) - 0x8000) = specAxisX v ∧
    toInt16 (if (-(convertAxisValue (biasAxis v) : Int) + 0x7fff) = -1 then 0
      else (-(convertAxisValue (biasAxis v) : Int) + 0x7fff)) = specAxisY v := by
  revert v
  decide

instance exceptDecEq {ε α : Type} [DecidableEq ε] [DecidableEq α] :
    DecidableEq (Except ε α) := fun a b =>
  match a, b with
  | Except.ok x, Except.ok y =>
      if h : x = y then isTrue (by rw [h]) else isFalse (fun hc => h (by cases hc; rfl))
  | Except.error x, Except.error y =>
      if h : x = y then isTrue (by rw [h]) else isFalse (fun hc => h (by cases hc; rfl))
  | Except.ok _, Except.error _ => isFalse (fun hc => Except.noConfusion hc)
  | Except.error _, Except.ok _ => isFalse (fun hc => Except.noConfusion hc)

/-! ## Claim theorems -/

/-- C1 (counterexample): the claim states that raw axis byte `0x80` widens
to `0x8010` and gives X-axis output `−32752`. On the code,
`(0x80 << 1) & 0xF = 0`, so `convertAxisValue 0x80 = 0x8000` (not
`0x8010`), and the X output of a report with that axis byte is `0` (not
`−32752`). -/
theorem C1_axis_0x80_counterexample :
    convertAxisValue 0x80 = 0x8000 ∧
    convertAxisValue 0x80 ≠ 0x8010 ∧
    (decoded [0x03, 8, 0, 0, 0x80, 0, 0, 0, 0, 0]).sThumbLX = 0 ∧
    (decoded [0x03, 8, 0, 0, 0x80, 0, 0, 0, 0, 0]).sThumbLX ≠ -32752 := by
  decide

/-- C1 (amended): raw axis byte `0x00` widens to `0x0000` and gives X-axis
output `−32768`; raw axis byte `0x80` is unchanged by the bias step (the
condition is `0 < v ≤ 0x7F`), widens to `0x8000`, and gives X-axis output
`0`. -/
theorem C1_axis_roundtrip :
    biasAxis 0x00 = 0x00 ∧
    convertAxisValue 0x00 = 0x0000 ∧
    (decoded [0x03, 8, 0, 0, 0x00, 0, 0, 0, 0, 0]).sThumbLX = -32768 ∧
    biasAxis 0x80 = 0x80 ∧
    convertAxisValue 0x80 = 0x8000 ∧
    (decoded [0x03, 8, 0, 0, 0x80, 0, 0, 0, 0, 0]).sThumbLX = 0 := by
  decide

/-- C2: for every recognized report of byte values, each of the four stick
outputs is the claimed axis pipeline applied to the corresponding raw axis
byte: bias decrement when `0 < v ≤ 0x7F`, widen by
`(v << 8) | ((v << 1) & 0xF)` with the `0xFFFE ↦ 0xFFFF` clamp, then
`wide − 0x8000` for X and `−wide + 0x7FFF` for Y with an exact `−1`
snapped to `0`; identically for both sticks (`specAxisX`/`specAxisY` are
written from the spec wording). -/
theorem C2_axis_pipeline (data : List Nat) (report : Xbox360ControllerReport)
    (hbytes : ∀ x ∈ data, x < 256)
    (htag : data.getD 0 0 = 0x03) (hlen : 10 ≤ data.length) :
    ∃ r, (ParseReport data report).2 = Except.ok r ∧
      r.sThumbLX = specAxisX (data.getD 4 0) ∧
      r.sThumbLY = specAxisY (data.getD 5 0) ∧
      r.sThumbRX = specAxisX (data.getD 6 0) ∧
      r.sThumbRY = specAxisY (data.getD 7 0) := by
  have hb : ∀ i, i < 10 → data.getD i 0 < 256 := by
    intro i hi
    have hil : i < data.length := by omega
    rw [List.getD_eq_getElem data 0 hil]
    exact hbytes _ (List.getElem_mem hil)
  rw [ParseReport, if_neg (by omega), if_pos ⟨htag, hlen⟩]
  refine ⟨_, rfl, ?_, ?_, ?_, ?_⟩ <;>
    simp only [decodeAxes, SetRightTrigger, SetLeftTrigger, SetRightThumb, SetLeftThumb,
      normalizeAxes_getD data hlen]
  · rw [if_pos (show (4:Nat) ≤ 4 ∧ (4:Nat) < 8 by omega)]
    exact (axis_pipeline_eq _ (hb 4 (by omega))).1
  · rw [if_pos (show (4:Nat) ≤ 5 ∧ (5:Nat) < 8 by omega)]
    exact (axis_pipeline_eq _ (hb 5 (by omega))).2
  · rw [if_pos (show (4:Nat) ≤ 6 ∧ (6:Nat) < 8 by omega)]
    exact (axis_pipeline_eq _ (hb 6 (by omega))).1
  · rw [if_pos (show (4:Nat) ≤ 7 ∧ (7:Nat) < 8 by omega)]
    exact (axis_pipeline_eq _ (hb 7 (by omega))).2

/-- C2 witness: the pipeline equalities at a concrete report carrying the
axis bytes `0x45, 0x80, 0xFF, 0x01`. -/
theorem C2_axis_pipeline_witness :
    ∃ r, (ParseReport [0x03, 0, 0, 0, 0x45, 0x80, 0xFF, 0x01, 0, 0] emptyReport).2
        = Except.ok r ∧
      r.sThumbLX = specAxisX 0x45 ∧
      r.sThumbLY = specAxisY 0x80 ∧
      r.sThumbRX = specAxisX 0xFF ∧
      r.sThumbRY = specAxisY 0x01 :=
  C2_axis_pipeline [0x03, 0, 0, 0, 0x45, 0x80, 0xFF, 0x01, 0, 0] emptyReport
    (by decide) (by decide) (by decide)

/-- C5: the concrete raw buffer `[0x03, 0, 0, 0, 0, 0, 0, 0, 0x10, 0x20]`
decodes successfully to: only the D-pad Up button set, both sticks at
`X = −32768` with the Y value `specAxisY 0x00 = 32767`, no
Assistant/Capture flag, left trigger `16` and right trigger `32`. -/
theorem C5_end_to_end :
    specAxisY 0x00 = 32767 ∧
    (ParseReport [0x03, 0x00, 0x00, 0x00, 0x00, 0x00, 0x00, 0x00, 0x10, 0x20]
        emptyReport).2 =
      Except.ok
        { wButtons := 1 <<< Xbox360ControllerButtonUp
          bLeftTrigger := 16
          bRightTrigger := 32
          sThumbLX := -32768
          sThumbLY := 32767
          sThumbRX := -32768
          sThumbRY := 32767
          Capture := false
          Assistant := false } := by
  decide

/-- C10: the `0xFFFE` clamp branch of `convertAxisValue` is unreachable:
for every byte value the widened word has bits 4..7 zero (`&&& 0xF0 = 0`),
hence never equals `0xFFFE`; `convertAxisValue` equals the unclamped
widening, never returns `0xFFFF`, and stays within `0..0xFF0F`. -/
theorem C10_clamp_unreachable : ∀ v : Nat, v < 256 →
    rawWide v &&& 0xF0 = 0 ∧
    rawWide v ≠ 0xFFFE ∧
    convertAxisValue v = rawWide v ∧
    convertAxisValue v ≠ 0xFFFF ∧
    convertAxisValue v ≤ 0xFF0F := by
  decide

/-- C10 witness: the clamp facts evaluated at the byte `0xFF`, where the
widening reaches its maximum `0xFF0E`. -/
theorem C10_clamp_unreachable_witness :
    rawWide 0xFF &&& 0xF0 = 0 ∧
    rawWide 0xFF ≠ 0xFFFE ∧
    convertAxisValue 0xFF = rawWide 0xFF ∧
    convertAxisValue 0xFF ≠ 0xFFFF ∧
    convertAxisValue 0xFF ≤ 0xFF0F :=
  C10_clamp_unreachable 0xFF (by decide)

/-- C3 (counterexample): the claim places A on bit 6 of the low button
byte `byte[2]` and Assistant on bit 3 of that byte. On the code,
`byte[2] = 0b0100_0000` sets Back (not A, which lives on bit 6 of
`byte[3]`), and `byte[2] = 0b0000_1000` sets nothing (Assistant lives on
bit 1). -/
theorem C3_button_byte_counterexample :
    hasButton (decoded [0x03, 8, 0b01000000, 0, 0, 0, 0, 0, 0, 0])
        Xbox360ControllerButtonA = false ∧
    hasButton (decoded [0x03, 8, 0b01000000, 0, 0, 0, 0, 0, 0, 0])
        Xbox360ControllerButtonBack = true ∧
    (decoded [0x03, 8, 0b00001000, 0, 0, 0, 0, 0, 0, 0]).Assistant = false ∧
    (decoded [0x03, 8, 0b00001000, 0, 0, 0, 0, 0, 0, 0]).wButtons = 0 ∧
    hasButton (decoded [0x03, 8, 0, 0b01000000, 0, 0, 0, 0, 0, 0])
        Xbox360ControllerButtonA = true := by
  decide

/-- C3 (amended): byte[2] carries, MSB to LSB, RightThumbClick, Back,
Start, Guide, two unused bits, Assistant, Capture; byte[3] carries, MSB to
LSB, A, B, X, Y, LeftShoulder, RightShoulder, LeftThumbClick, one unused
bit. In particular byte[3] pattern `0b0100_0000` maps to A pressed and
byte[2] pattern `0b1000_0000` sets RightThumbClick. Stated for every byte
value in each position (the D-pad byte is 8, so no direction bit mixes
in). -/
theorem C3_button_bit_mapping : ∀ b : Nat, b < 256 →
    (hasButton (decoded [0x03, 8, b, 0, 0, 0, 0, 0, 0, 0])
        Xbox360ControllerButtonRightThumb = b.testBit 7 ∧
      hasButton (decoded [0x03, 8, b, 0, 0, 0, 0, 0, 0, 0])
        Xbox360ControllerButtonBack = b.testBit 6 ∧
      hasButton (decoded [0x03, 8, b, 0, 0, 0, 0, 0, 0, 0])
        Xbox360ControllerButtonStart = b.testBit 5 ∧
      hasButton (decoded [0x03, 8, b, 0, 0, 0, 0, 0, 0, 0])
        Xbox360ControllerButtonGuide = b.testBit 4 ∧
      (decoded [0x03, 8, b, 0, 0, 0, 0, 0, 0, 0]).Assistant = b.testBit 1 ∧
      (decoded [0x03, 8, b, 0, 0, 0, 0, 0, 0, 0]).Capture = b.testBit 0) ∧
    (hasButton (decoded [0x03, 8, 0, b, 0, 0, 0, 0, 0, 0])
        Xbox360ControllerButtonA = b.testBit 6 ∧
      hasButton (decoded [0x03, 8, 0, b, 0, 0, 0, 0, 0, 0])
        Xbox360ControllerButtonB = b.testBit 5 ∧
      hasButton (decoded [0x03, 8, 0, b, 0, 0, 0, 0, 0, 0])
        Xbox360ControllerButtonX = b.testBit 4 ∧
      hasButton (decoded [0x03, 8, 0, b, 0, 0, 0, 0, 0, 0])
        Xbox360ControllerButtonY = b.testBit 3 ∧
      hasButton (decoded [0x03, 8, 0, b, 0, 0, 0, 0, 0, 0])
        Xbox360ControllerButtonLeftShoulder = b.testBit 2 ∧
      hasButton (decoded [0x03, 8, 0, b, 0, 0, 0, 0, 0, 0])
        Xbox360ControllerButtonRightShoulder = b.testBit 1 ∧
      hasButton (decoded [0x03, 8, 0, b, 0, 0, 0, 0, 0, 0])
        Xbox360ControllerButtonLeftThumb = b.testBit 0) := by
  decide

/-- C3 witness: the bit mapping evaluated at the byte `0b1100_0001` in
each button-byte position. -/
theorem C3_button_bit_mapping_witness :
    (hasButton (decoded [0x03, 8, 0b11000001, 0, 0, 0, 0, 0, 0, 0])
        Xbox360ControllerButtonRightThumb = (0b11000001 : Nat).testBit 7 ∧
      hasButton (decoded [0x03, 8, 0b11000001, 0, 0, 0, 0, 0, 0, 0])
        Xbox360ControllerButtonBack = (0b11000001 : Nat).testBit 6 ∧
      hasButton (decoded [0x03, 8, 0b11000001, 0, 0, 0, 0, 0, 0, 0])
        Xbox360ControllerButtonStart = (0b11000001 : Nat).testBit 5 ∧
      hasButton (decoded [0x03, 8, 0b11000001, 0, 0, 0, 0, 0, 0, 0])
        Xbox360ControllerButtonGuide = (0b11000001 : Nat).testBit 4 ∧
      (decoded [0x03, 8, 0b11000001, 0, 0, 0, 0, 0, 0, 0]).Assistant
        = (0b11000001 : Nat).testBit 1 ∧
      (decoded [0x03, 8, 0b11000001, 0, 0, 0, 0, 0, 0, 0]).Capture
        = (0b11000001 : Nat).testBit 0) ∧
    (hasButton (decoded [0x03, 8, 0, 0b11000001, 0, 0, 0, 0, 0, 0])
        Xbox360ControllerButtonA = (0b11000001 : Nat).testBit 6 ∧
      hasButton (decoded [0x03, 8, 0, 0b11000001, 0, 0, 0, 0, 0, 0])
        Xbox360ControllerButtonB = (0b11000001 : Nat).testBit 5 ∧
      hasButton (decoded [0x03, 8, 0, 0b11000001, 0, 0, 0, 0, 0, 0])
        Xbox360ControllerButtonX = (0b11000001 : Nat).testBit 4 ∧
      hasButton (decoded [0x03, 8, 0, 0b11000001, 0, 0, 0, 0, 0, 0])
        Xbox360ControllerButtonY = (0b11000001 : Nat).testBit 3 ∧
      hasButton (decoded [0x03, 8, 0, 0b11000001, 0, 0, 0, 0, 0, 0])
        Xbox360ControllerButtonLeftShoulder = (0b11000001 : Nat).testBit 2 ∧
      hasButton (decoded [0x03, 8, 0, 0b11000001, 0, 0, 0, 0, 0, 0])
        Xbox360ControllerButtonRightShoulder = (0b11000001 : Nat).testBit 1 ∧
      hasButton (decoded [0x03, 8, 0, 0b11000001, 0, 0, 0, 0, 0, 0])
        Xbox360ControllerButtonLeftThumb = (0b11000001 : Nat).testBit 0) :=
  C3_button_bit_mapping 0b11000001 (by decide)

/-- C4: for every byte value of the D-pad code, the decode sets exactly
the directions of the table: 0 ↦ Up, 1 ↦ Up+Right, 2 ↦ Right,
3 ↦ Right+Down, 4 ↦ Down, 5 ↦ Down+Left, 6 ↦ Left, 7 ↦ Left+Up, and
every other value sets no direction while the report still decodes
successfully (no error). -/
theorem C4_dpad_decode : ∀ a : Nat, a < 256 →
    (ParseReport [0x03, a, 0, 0, 0, 0, 0, 0, 0, 0] emptyReport).2 =
      Except.ok (decoded [0x03, a, 0, 0, 0, 0, 0, 0, 0, 0]) ∧
    hasButton (decoded [0x03, a, 0, 0, 0, 0, 0, 0, 0, 0])
      Xbox360ControllerButtonUp = (a = 0 ∨ a = 1 ∨ a = 7 : Bool) ∧
    hasButton (decoded [0x03, a, 0, 0, 0, 0, 0, 0, 0, 0])
      Xbox360ControllerButtonRight = (a = 1 ∨ a = 2 ∨ a = 3 : Bool) ∧
    hasButton (decoded [0x03, a, 0, 0, 0, 0, 0, 0, 0, 0])
      Xbox360ControllerButtonDown = (a = 3 ∨ a = 4 ∨ a = 5 : Bool) ∧
    hasButton (decoded [0x03, a, 0, 0, 0, 0, 0, 0, 0, 0])
      Xbox360ControllerButtonLeft = (a = 5 ∨ a = 6 ∨ a = 7 : Bool) := by
  decide

/-- C4 witness: the D-pad decode evaluated at the out-of-range code `8`,
which decodes without error and sets no direction. -/
theorem C4_dpad_decode_witness :
    (ParseReport [0x03, 8, 0, 0, 0, 0, 0, 0, 0, 0] emptyReport).2 =
      Except.ok (decoded [0x03, 8, 0, 0, 0, 0, 0, 0, 0, 0]) ∧
    hasButton (decoded [0x03, 8, 0, 0, 0, 0, 0, 0, 0, 0])
      Xbox360ControllerButtonUp = (8 = 0 ∨ 8 = 1 ∨ 8 = 7 : Bool) ∧
    hasButton (decoded [0x03, 8, 0, 0, 0, 0, 0, 0, 0, 0])
      Xbox360ControllerButtonRight = (8 = 1 ∨ 8 = 2 ∨ 8 = 3 : Bool) ∧
    hasButton (decoded [0x03, 8, 0, 0, 0, 0, 0, 0, 0, 0])
      Xbox360ControllerButtonDown = (8 = 3 ∨ 8 = 4 ∨ 8 = 5 : Bool) ∧
    hasButton (decoded [0x03, 8, 0, 0, 0, 0, 0, 0, 0, 0])
      Xbox360ControllerButtonLeft = (8 = 5 ∨ 8 = 6 ∨ 8 = 7 : Bool) :=
  C4_dpad_decode 8 (by decide)

/-- C6: `ParseReport` is total: the empty buffer yields the empty-report
error; every non-empty buffer that is not tag `0x03` with length at least
10 yields the unknown-format error carrying the base64 encoding of the raw
bytes; and decoding succeeds exactly on buffers with tag `0x03` and length
at least 10. -/
theorem C6_parse_total (data : List Nat) (report : Xbox360ControllerReport) :
    (data = [] → (ParseReport data report).2 = Except.error GoError.emptyReport) ∧
    (data ≠ [] → ¬(data.getD 0 0 = 0x03 ∧ 10 ≤ data.length) →
      (ParseReport data report).2 =
        Except.error (GoError.unknownFormat (base64Encode data))) ∧
    ((∃ r, (ParseReport data report).2 = Except.ok r) ↔
      (data.getD 0 0 = 0x03 ∧ 10 ≤ data.length)) := by
  refine ⟨?_, ?_, ?_⟩
  · intro h
    subst h
    rfl
  · intro hne hcond
    rw [ParseReport, if_neg (fun h => hne (List.length_eq_zero.mp h)), if_neg hcond]
  · constructor
    · rintro ⟨r, hr⟩
      by_contra hc
      rw [ParseReport] at hr
      by_cases hz : data.length = 0
      · rw [if_pos hz] at hr
        cases hr
      · rw [if_neg hz, if_neg hc] at hr
        cases hr
    · intro hc
      have hz : ¬data.length = 0 := by
        have := hc.2
        omega
      rw [ParseReport, if_neg hz, if_pos hc]
      exact ⟨_, rfl⟩

/-- C6 witness: the three branches evaluated on the concrete buffers `[]`,
`[0x05]` (wrong tag) and a 10-byte tag-`0x03` buffer. -/
theorem C6_parse_total_witness :
    (ParseReport [] emptyReport).2 = Except.error GoError.emptyReport ∧
    (ParseReport [0x05] emptyReport).2 =
      Except.error (GoError.unknownFormat (base64Encode [0x05])) ∧
    (∃ r, (ParseReport [0x03, 0, 0, 0, 0, 0, 0, 0, 0, 0] emptyReport).2 = Except.ok r) :=
  ⟨(C6_parse_total [] emptyReport).1 rfl,
   (C6_parse_total [0x05] emptyReport).2.1 (by decide) (by decide),
   ((C6_parse_total [0x03, 0, 0, 0, 0, 0, 0, 0, 0, 0] emptyReport).2.2).mpr (by decide)⟩

/-- C7 (counterexample): the claim says channel closure makes `GetReport`
return a Disconnected error distinct from the Retryable error used for
decode failures. On the code both paths return the one sentinel
`RetryError`: on a live session, the error returned after channel closure
is identical to the error returned after a decode failure (here the empty
buffer), so no distinct disconnect error exists. -/
theorem C7_disconnect_counterexample :
    (GetReport ⟨true, none, true⟩ ReadOutcome.closed).err = some GoError.retryError ∧
    (GetReport ⟨true, none, true⟩ (ReadOutcome.buf [])).err = some GoError.retryError ∧
    (GetReport ⟨true, none, true⟩ ReadOutcome.closed).err =
      (GetReport ⟨true, none, true⟩ (ReadOutcome.buf [])).err := by
  decide

/-- C7 (amended): when the read channel closes, `GetReport` closes and
clears the device (marking the session closed) and returns `RetryError` —
the same retry sentinel used for decode failures, not a distinct
disconnect error; every subsequent read with no device and no recorded
fault returns `RetryError` without performing any channel read; and a
decode failure on a live device returns `RetryError` while keeping the
device open. -/
theorem C7_disconnect_behavior (c : StadiaController) (hdev : c.device = true)
    (data : List Nat) :
    ((GetReport c ReadOutcome.closed).state.device = false ∧
      (GetReport c ReadOutcome.closed).err = some GoError.retryError) ∧
    (∀ c2 : StadiaController, c2.device = false → c2.err = none →
      ∀ read, (GetReport c2 read).err = some GoError.retryError ∧
        (GetReport c2 read).performedRead = false ∧
        (GetReport c2 read).state = c2) ∧
    (∀ e, (ParseReport data emptyReport).2 = Except.error e →
      (GetReport c (ReadOutcome.buf data)).err = some GoError.retryError ∧
      (GetReport c (ReadOutcome.buf data)).state = c) := by
  refine ⟨?_, ?_, ?_⟩
  · simp [GetReport, hdev]
  · intro c2 h1 h2 read
    simp [GetReport, h1, h2]
  · intro e he
    simp [GetReport, hdev, he]

/-- C7 witness: the amended disconnect behavior evaluated on a live
session and the undecodable empty buffer. -/
theorem C7_disconnect_behavior_witness :
    ((GetReport ⟨true, none, false⟩ ReadOutcome.closed).state.device = false ∧
      (GetReport ⟨true, none, false⟩ ReadOutcome.closed).err = some GoError.retryError) ∧
    (GetReport ⟨false, none, false⟩ ReadOutcome.closed).err = some GoError.retryError ∧
    (GetReport ⟨true, none, false⟩ (ReadOutcome.buf [])).err = some GoError.retryError :=
  ⟨(C7_disconnect_behavior ⟨true, none, false⟩ rfl []).1,
   ((C7_disconnect_behavior ⟨true, none, false⟩ rfl []).2.1
      ⟨false, none, false⟩ rfl rfl ReadOutcome.closed).1,
   ((C7_disconnect_behavior ⟨true, none, false⟩ rfl []).2.2
      GoError.emptyReport (by decide)).1⟩

/-- C8: when `Devices()` fails with a platform error, the scan loop
records the error and breaks: afterwards the recorded fault is permanent,
no later tick calls enumeration again, and every `GetReport` with no open
device returns the recorded fault (not the retry sentinel) without
performing any channel read. -/
theorem C8_enum_fault_permanent (c : StadiaController) (e : GoError)
    (hrun : c.scanLoopRunning = true) (hdev : c.device = false)
    (herr : c.err = none) (he : e ≠ GoError.retryError) :
    (scanTick c (EnumOutcome.failure e)).1.err = some e ∧
    (scanTick c (EnumOutcome.failure e)).1.scanLoopRunning = false ∧
    (scanTick c (EnumOutcome.failure e)).2 = true ∧
    (∀ enum, scanTick (scanTick c (EnumOutcome.failure e)).1 enum =
      ((scanTick c (EnumOutcome.failure e)).1, false)) ∧
    (∀ read, (GetReport (scanTick c (EnumOutcome.failure e)).1 read).err = some e ∧
      (GetReport (scanTick c (EnumOutcome.failure e)).1 read).err ≠
        some GoError.retryError ∧
      (GetReport (scanTick c (EnumOutcome.failure e)).1 read).performedRead = false) := by
  have h1 : scanTick c (EnumOutcome.failure e) =
      ({ c with err := some e, scanLoopRunning := false }, true) := by
    simp [scanTick, hrun, hdev, herr]
  refine ⟨by simp [h1], by simp [h1], by simp [h1], ?_, ?_⟩
  · intro enum
    rw [h1]
    simp [scanTick]
  · intro read
    refine ⟨by simp [h1, GetReport, hdev], ?_, by simp [h1, GetReport, hdev]⟩
    simp [h1, GetReport, hdev, he]

/-- C8 witness: the permanent-fault behavior evaluated on the freshly
constructed controller and a concrete platform error. -/
theorem C8_enum_fault_permanent_witness :
    (scanTick newStadiaController
      (EnumOutcome.failure (GoError.platformError "access denied"))).1.err =
        some (GoError.platformError "access denied") ∧
    (scanTick newStadiaController
      (EnumOutcome.failure (GoError.platformError "access denied"))).1.scanLoopRunning
        = false :=
  ⟨(C8_enum_fault_permanent newStadiaController
      (GoError.platformError "access denied") rfl rfl rfl (by decide)).1,
   (C8_enum_fault_permanent newStadiaController
      (GoError.platformError "access denied") rfl rfl rfl (by decide)).2.1⟩

/-- C9: `ParseReport` mutates the buffer of the caller in place: on a
recognized report, each byte at indices 4..7 whose value lies in
`0x01..0x7F` comes back decremented, all other indices come back
unchanged, and re-decoding the buffer returned by a first decode can yield
a different result than the first decode (shown on a concrete buffer), so
the decode is not a pure function of the buffer object. -/
theorem C9_in_place_mutation (data : List Nat) (htag : data.getD 0 0 = 0x03)
    (hlen : 10 ≤ data.length) :
    (∀ i, 4 ≤ i → i < 8 →
      (ParseReport data emptyReport).1.getD i 0 =
        if 1 ≤ data.getD i 0 ∧ data.getD i 0 ≤ 0x7F
          then data.getD i 0 - 1 else data.getD i 0) ∧
    (∀ i, i < 4 ∨ 8 ≤ i →
      (ParseReport data emptyReport).1.getD i 0 = data.getD i 0) ∧
    ((ParseReport (ParseReport [0x03, 0, 0, 0, 2, 2, 2, 2, 0, 0] emptyReport).1
        emptyReport).2 ≠
      (ParseReport [0x03, 0, 0, 0, 2, 2, 2, 2, 0, 0] emptyReport).2) := by
  have hfst : (ParseReport data emptyReport).1 = normalizeAxes data := by
    rw [ParseReport, if_neg (by omega), if_pos ⟨htag, hlen⟩]
  refine ⟨?_, ?_, by decide⟩
  · intro i h4 h8
    rw [hfst, normalizeAxes_getD data hlen i, if_pos ⟨h4, h8⟩, biasAxis]
    by_cases hc : 1 ≤ data.getD i 0 ∧ data.getD i 0 ≤ 0x7F
    · rw [if_pos ⟨hc.2, hc.1⟩, if_pos hc]
    · rw [if_neg (fun h => hc ⟨h.2, h.1⟩), if_neg hc]
  · intro i hi
    rw [hfst, normalizeAxes_getD data hlen i, if_neg (by omega)]

/-- C9 witness: on the concrete buffer `[0x03,0,0,0,2,2,2,2,0,0]`, the
byte at index 4 comes back decremented to `1`. -/
theorem C9_in_place_mutation_witness :
    (ParseReport [0x03, 0, 0, 0, 2, 2, 2, 2, 0, 0] emptyReport).1.getD 4 0 = 1 := by
  simpa using
    (C9_in_place_mutation [0x03, 0, 0, 0, 2, 2, 2, 2, 0, 0] (by decide) (by decide)).1
      4 (by decide) (by decide)

end StadiaCtl
